import Mathlib

/-!
Shallow embedding of the scoring and analytics engine of `src/analytics.py`
(f1-fantasy-stats).  Tabular pandas data is modelled with explicit option
types: a numeric cell is `Option ℚ` (`none` = NaN), a cell of a column that
may be missing from the table altogether is `Option (Option ℚ)` (outer
`none` = column absent).  Python `int()` on a float raises `ValueError` on
NaN, so it is embedded as a fallible `Except`-valued coercion, and the row
scorer — which calls `int()` unguarded in three places — is itself
`Except`-valued.
-/

namespace F1

/-- Python `int()` truncation toward zero of an exact numeric value. -/
def truncQ (q : ℚ) : ℤ := q.num.tdiv (q.den : ℤ)

/-- Python `int(x)` on a possibly-NaN float cell: `ValueError` on NaN
(`float('nan')` cannot be converted), truncation toward zero otherwise. -/
def pyInt : Option ℚ → Except String ℤ
  | none => .error "cannot convert float NaN to integer"
  | some q => .ok (truncQ q)

/-- A raw CSV cell before `pd.to_numeric`: a number, a string, or null. -/
inductive Raw where
  | rnum (q : ℚ)
  | rstr (s : String)
  | rnull

/-- Numeric value of a list of decimal digit characters. -/
def digitsToNat (l : List Char) : ℕ :=
  l.foldl (fun acc c => 10 * acc + (c.toNat - 48)) 0

/-- Reading of an unsigned decimal literal (digits with an optional single
decimal point); `none` when the characters are not such a literal. -/
def parseUnsigned (cs : List Char) : Option ℚ :=
  let ip := cs.takeWhile Char.isDigit
  let rest := cs.dropWhile Char.isDigit
  match rest with
  | [] => if ip = [] then none else some (digitsToNat ip : ℚ)
  | '.' :: fp =>
      if fp.all Char.isDigit ∧ (ip ≠ [] ∨ fp ≠ []) then
        some ((digitsToNat ip : ℚ) + (digitsToNat fp : ℚ) / ((10 : ℚ) ^ fp.length))
      else none
  | _ => none

/-- Reading of a signed decimal literal. -/
def parseDecimal (s : String) : Option ℚ :=
  match s.toList with
  | '-' :: t => (parseUnsigned t).map (fun q => -q)
  | '+' :: t => parseUnsigned t
  | cs => parseUnsigned cs

/-- `pd.to_numeric(cell, errors="coerce")` on one cell (`_to_numeric` applies
this to every cell of the listed columns): numbers pass through, strings are
parsed as decimal literals, anything unreadable coerces to NaN (`none`). -/
def to_numeric : Raw → Option ℚ
  | .rnum q => some q
  | .rstr s => parseDecimal s
  | .rnull => none

/-- `PointsConfig` dataclass.  Python dicts are association lists; the two
optional mappings default to `None` as in the dataclass. -/
structure PointsConfig where
  race_points_by_finish : List (String × ℤ)
  pole_bonus : ℤ := 0
  fastest_lap_bonus : ℤ := 0
  dnf_penalty : ℤ := 0
  position_gain_bonus : ℤ := 0
  position_loss_penalty : ℤ := 0
  qualifying_points_by_position : Option (List (String × ℤ)) := none
  practice_points_by_position : Option (List (String × ℤ)) := none

/-- Python `dict.get(k, 0)`. -/
def dictGet (d : List (String × ℤ)) (k : String) : ℤ := (d.lookup k).getD 0

/-- One joined weekend row as `compute_points_row` sees it.  Outer `none`:
the column is missing from the table (`row.get` falls back to its default);
inner `none`: the cell holds NaN. -/
structure Row where
  quali : Option (Option ℚ) := none
  grid : Option (Option ℚ) := none
  finish : Option (Option ℚ) := none
  dnf : Option (Option ℚ) := none
  fastest_lap : Option (Option ℚ) := none
  p1 : Option (Option ℚ) := none
  p2 : Option (Option ℚ) := none
  p3 : Option (Option ℚ) := none

/-- `row.get(col, np.nan)`. -/
def getNan (v : Option (Option ℚ)) : Option ℚ := v.getD none

/-- `row.get(col, 0)`. -/
def getZero (v : Option (Option ℚ)) : Option ℚ := v.getD (some 0)

/-- Race-points term of `compute_points_row` (guarded by `pd.isna`). -/
def racePts (row : Row) (cfg : PointsConfig) : Except String ℤ :=
  if (getNan row.finish).isSome then do
    let f ← pyInt (getNan row.finish)
    pure (dictGet cfg.race_points_by_finish (toString f))
  else pure 0

/-- Pole-bonus term of `compute_points_row` (guarded by `pd.isna`). -/
def poleBonusPts (row : Row) (cfg : PointsConfig) : Except String ℤ :=
  if (getNan row.quali).isSome then do
    let q ← pyInt (getNan row.quali)
    pure (if q = 1 then cfg.pole_bonus else 0)
  else pure 0

/-- Fastest-lap term: `int(row.get("fastest_lap", 0))` is unguarded, so a
NaN cell is a `ValueError`. -/
def fastestLapPts (row : Row) (cfg : PointsConfig) : Except String ℤ := do
  let v ← pyInt (getZero row.fastest_lap)
  pure (if v = 1 then cfg.fastest_lap_bonus else 0)

/-- Position-change term (guarded: both grid and finish non-NaN). -/
def posChangePts (row : Row) (cfg : PointsConfig) : Except String ℤ :=
  if (getNan row.grid).isSome ∧ (getNan row.finish).isSome then do
    let g ← pyInt (getNan row.grid)
    let f ← pyInt (getNan row.finish)
    let delta := g - f
    pure (if 0 < delta then delta * cfg.position_gain_bonus
          else if delta < 0 then (delta.natAbs : ℤ) * (-cfg.position_loss_penalty)
          else 0)
  else pure 0

/-- DNF term: `int(row.get("dnf", 0))` is unguarded, NaN is a `ValueError`;
the penalty is subtracted when the coerced flag equals 1. -/
def dnfPts (row : Row) (cfg : PointsConfig) : Except String ℤ := do
  let v ← pyInt (getZero row.dnf)
  pure (if v = 1 then -cfg.dnf_penalty else 0)

/-- Qualifying-mapping term: only evaluated when the mapping is truthy
(neither `None` nor `{}`); `int(row.get("quali", 0))` is unguarded, so a
NaN `quali` cell is a `ValueError` here. -/
def qualiMapPts (row : Row) (cfg : PointsConfig) : Except String ℤ :=
  match cfg.qualifying_points_by_position with
  | none => pure 0
  | some m =>
      if m = [] then pure 0
      else do
        let q ← pyInt (getZero row.quali)
        pure (dictGet m (toString q))

/-- One practice column of the practice term (`col in row` then `pd.isna`). -/
def practicePtsOne (m : List (String × ℤ)) (v : Option (Option ℚ)) :
    Except String ℤ :=
  match v with
  | none => pure 0
  | some c =>
      if c.isSome then do
        let x ← pyInt c
        pure (dictGet m (toString x))
      else pure 0

/-- Practice-mapping term, only when the mapping is truthy. -/
def practicePts (row : Row) (cfg : PointsConfig) : Except String ℤ :=
  match cfg.practice_points_by_position with
  | none => pure 0
  | some m =>
      if m = [] then pure 0
      else do
        let a ← practicePtsOne m row.p1
        let b ← practicePtsOne m row.p2
        let c ← practicePtsOne m row.p3
        pure (a + b + c)

/-- `compute_points_row(row, cfg)`: the additive terms in source order.  The
accumulator updates of the Python body commute into one final sum; the three
unguarded `int()` calls make the whole computation fallible. -/
def compute_points_row (row : Row) (cfg : PointsConfig) : Except String ℤ := do
  let t1 ← racePts row cfg
  let t2 ← poleBonusPts row cfg
  let t3 ← fastestLapPts row cfg
  let t4 ← posChangePts row cfg
  let t5 ← dnfPts row cfg
  let t6 ← qualiMapPts row cfg
  let t7 ← practicePts row cfg
  pure (t1 + t2 + t3 + t4 + t5 + t6 + t7)

/-! ## Simulation / aggregation (`simulate_points`, `aggregate_points`) -/

/-- One row of the simulated table: the five identifying keys (numeric keys
post-`to_numeric`, NaN = `none`) plus `sim_points`. -/
structure SimRow where
  season : Option ℚ := none
  round : Option ℚ := none
  grand_prix : Option String := none
  driver : Option String := none
  team : Option String := none
  sim_points : ℤ := 0
deriving DecidableEq

/-- The simulated table; `hasX = false` means the column is missing, in
which case the corresponding field of each row is meaningless. -/
structure SimTable where
  hasSeason : Bool := true
  hasRound : Bool := true
  hasGrandPrix : Bool := true
  hasDriver : Bool := true
  hasTeam : Bool := true
  rows : List SimRow := []

/-- Number of grouping-key columns of `aggregate_points` present. -/
def SimTable.allKeyCols (t : SimTable) : Bool :=
  t.hasSeason && t.hasRound && t.hasGrandPrix && t.hasDriver && t.hasTeam

/-- The full five-column grouping key of `aggregate_points`. -/
abbrev GroupKey := ℚ × ℚ × String × String × String

/-- The grouping key of a row, `none` when any component is NaN (pandas
`groupby` with the default `dropna=True` drops such rows). -/
def keyOf (r : SimRow) : Option GroupKey :=
  match r.season, r.round, r.grand_prix, r.driver, r.team with
  | some s, some rd, some g, some d, some t => some (s, rd, g, d, t)
  | _, _, _, _, _ => none

/-- Add `v` to the accumulated sum of key `k` (first-appearance order). -/
def insertAdd (k : GroupKey) (v : ℤ) :
    List (GroupKey × ℤ) → List (GroupKey × ℤ)
  | [] => [(k, v)]
  | (k', v') :: rest =>
      if k' = k then (k', v' + v) :: rest else (k', v') :: insertAdd k v rest

/-- One `groupby(...)["sim_points"].sum()` step over one row. -/
def groupStep (acc : List (GroupKey × ℤ)) (r : SimRow) : List (GroupKey × ℤ) :=
  match keyOf r with
  | some k => insertAdd k r.sim_points acc
  | none => acc

/-- `groupby(["season","round","grand_prix","driver","team"])["sim_points"].sum()`:
per-key sums over the rows whose key is fully present. -/
def groupSums (rows : List SimRow) : List (GroupKey × ℤ) :=
  rows.foldl groupStep []

/-- `sort_values(["season","round","sim_points"], ascending=[True,True,False])`
as a total preorder on aggregated rows. -/
def aggOrder (a b : GroupKey × ℤ) : Prop :=
  a.1.1 < b.1.1 ∨
    (a.1.1 = b.1.1 ∧ (a.1.2.1 < b.1.2.1 ∨ (a.1.2.1 = b.1.2.1 ∧ b.2 ≤ a.2)))

instance : DecidableRel aggOrder := fun a b => by
  unfold aggOrder
  exact inferInstance

/-- `aggregate_points(sim_df)`: group by all five key columns — pandas
raises `KeyError` when any of them is missing — sum `sim_points`, and sort
by (season asc, round asc, sim_points desc). -/
def aggregate_points (t : SimTable) : Except String (List (GroupKey × ℤ)) :=
  if t.allKeyCols then
    .ok (List.insertionSort aggOrder (groupSums t.rows))
  else .error "KeyError: grouping column not in the DataFrame"

/-- Total of the `sim_points` column of an aggregated table. -/
def aggTotal (l : List (GroupKey × ℤ)) : ℤ := (l.map Prod.snd).sum

/-- Total of the `sim_points` column of a simulated table. -/
def simTotal (rows : List SimRow) : ℤ := (rows.map SimRow.sim_points).sum

/-! ## Teammate head-to-head (`teammate_h2h`) -/

/-- One input row as `teammate_h2h` consumes it (post-`to_numeric`). -/
structure H2HRow where
  season : Option ℚ := none
  round : Option ℚ := none
  grand_prix : Option String := none
  driver : Option String := none
  team : Option String := none
  finish : Option ℚ := none
  dnf : Option ℚ := none
deriving DecidableEq

/-- Input table of `teammate_h2h` with per-column presence flags for the
seven columns the function checks with `needed.issubset(df.columns)`. -/
structure H2HTable where
  hasSeason : Bool := true
  hasRound : Bool := true
  hasGrandPrix : Bool := true
  hasDriver : Bool := true
  hasTeam : Bool := true
  hasFinish : Bool := true
  hasDnf : Bool := true
  rows : List H2HRow := []

/-- All seven needed columns present. -/
def H2HTable.allCols (t : H2HTable) : Bool :=
  t.hasSeason && t.hasRound && t.hasGrandPrix && t.hasDriver && t.hasTeam &&
    t.hasFinish && t.hasDnf

/-- Event/team grouping key of `teammate_h2h` (`dropna=False`: NaN key
components group like ordinary values, which `Option` equality models). -/
abbrev EKey := Option ℚ × Option ℚ × Option String × Option String

/-- The (season, round, grand_prix, team) key of a row. -/
def ekeyOf (r : H2HRow) : EKey := (r.season, r.round, r.grand_prix, r.team)

/-- Append row `r` to the group of key `k` (first-appearance group order,
original row order inside each group, as pandas `groupby` iteration). -/
def addToGroups (k : EKey) (r : H2HRow) :
    List (EKey × List H2HRow) → List (EKey × List H2HRow)
  | [] => [(k, [r])]
  | (k', g) :: rest =>
      if k' = k then (k', g ++ [r]) :: rest else (k', g) :: addToGroups k r rest

/-- Group the rows by event/team key. -/
def groupByEvent (rows : List H2HRow) : List (EKey × List H2HRow) :=
  rows.foldl (fun acc r => addToGroups (ekeyOf r) r acc) []

/-- `outcome(x)`: the comparable finish (`None` for NaN, else `int(f)`) and
the dnf flag (`int(d)` with NaN defaulting to 0). -/
def outcome (x : H2HRow) : Option ℤ × ℤ :=
  let d : ℤ := match x.dnf with | some q => truncQ q | none => 0
  match x.finish with
  | none => (none, d)
  | some f => (some (truncQ f), d)

/-- `decide(f1, d1, f2, d2)`: `some 1` if entrant 1 beats entrant 2,
`some 0` if it loses, `none` for no result — the exact cascade of the
source. -/
def decide (f1 : Option ℤ) (d1 : ℤ) (f2 : Option ℤ) (d2 : ℤ) : Option ℤ :=
  if f1 = none ∧ f2 = none then none
  else if d1 = 1 ∧ d2 = 1 then none
  else if d1 = 1 ∧ d2 = 0 then some 0
  else if d1 = 0 ∧ d2 = 1 then some 1
  else if f1 = none ∨ f2 = none then none
  else match f1, f2 with
    | some a, some b => if a < b then some 1 else if b < a then some 0 else none
    | _, _ => none

/-- One per-race H2H output row. -/
structure OutRow where
  season : Option ℤ
  round : Option ℤ
  grand_prix : Option String
  team : Option String
  driver : Option String
  teammate : Option String
  finish : Option ℤ
  tm_finish : Option ℤ
  dnf : ℤ
  tm_dnf : ℤ
  beat_teammate : Option ℤ
deriving DecidableEq

/-- Build one output row from entrant `x`'s perspective against `y`
(`int(season)` when non-NaN, likewise for round). -/
def mkOutRow (k : EKey) (x y : H2HRow) (w : Option ℤ) : OutRow :=
  { season := k.1.map truncQ, round := k.2.1.map truncQ,
    grand_prix := k.2.2.1, team := k.2.2.2,
    driver := x.driver, teammate := y.driver,
    finish := (outcome x).1, tm_finish := (outcome y).1,
    dnf := (outcome x).2, tm_dnf := (outcome y).2,
    beat_teammate := w }

/-- Loop body of `teammate_h2h` for one group: drop entrants with an absent
driver, skip the group unless exactly 2 remain, else emit both
perspectives (`b_win` is only computed when `a_win` is not `None`). -/
def processGroup (k : EKey) (g : List H2HRow) : List OutRow :=
  match g.filter (fun r => r.driver.isSome) with
  | [a, b] =>
      let fa := (outcome a).1
      let da := (outcome a).2
      let fb := (outcome b).1
      let db := (outcome b).2
      let aWin := decide fa da fb db
      let bWin := if aWin.isSome then decide fb db fa da else none
      [mkOutRow k a b aWin, mkOutRow k b a bWin]
  | _ => []

/-- Sort key of `per_race.sort_values(["season","round","team","driver"])`,
NaN last, as a Bool comparator. -/
def outRowLE (x y : OutRow) : Bool :=
  let ltZ : Option ℤ → Option ℤ → Bool := fun a b =>
    match a, b with
    | some u, some v => u < v
    | some _, none => true
    | none, _ => false
  let ltS : Option String → Option String → Bool := fun a b =>
    match a, b with
    | some u, some v => u < v
    | some _, none => true
    | none, _ => false
  if ltZ x.season y.season then true
  else if x.season ≠ y.season then false
  else if ltZ x.round y.round then true
  else if x.round ≠ y.round then false
  else if ltS x.team y.team then true
  else if x.team ≠ y.team then false
  else if ltS x.driver y.driver then true
  else x.driver = y.driver

/-- One season-summary row. -/
structure SummRow where
  driver : Option String
  wins : ℤ
  losses : ℤ
  total : ℤ
  win_pct : ℚ

/-- Add one valid outcome (`w` ∈ {0,1}) to a driver's (wins, total) tally. -/
def addWin (d : String) (w : ℤ) :
    List (String × ℤ × ℤ) → List (String × ℤ × ℤ)
  | [] => [(d, w, 1)]
  | (d', s, c) :: rest =>
      if d' = d then (d', s + w, c + 1) :: rest else (d', s, c) :: addWin d w rest

/-- `groupby("driver").agg(wins=sum, total=count)` over the valid rows. -/
def driverStats (valid : List OutRow) : List (String × ℤ × ℤ) :=
  valid.foldl (fun acc r =>
    match r.driver, r.beat_teammate with
    | some d, some w => addWin d w acc
    | _, _ => acc) []

/-- Python `round(q, 3)` on an exact value: round half to even. -/
def pyRound3 (q : ℚ) : ℚ :=
  let x := q * 1000
  let fl := ⌊x⌋
  let fr := x - (fl : ℚ)
  let r : ℤ :=
    if fr < 1/2 then fl
    else if 1/2 < fr then fl + 1
    else if fl % 2 = 0 then fl else fl + 1
  (r : ℚ) / 1000

/-- Summary row of one driver's tally. -/
def mkSumm (s : String × ℤ × ℤ) : SummRow :=
  { driver := some s.1, wins := s.2.1, losses := s.2.2 - s.2.1,
    total := s.2.2, win_pct := pyRound3 ((s.2.1 : ℚ) / (s.2.2 : ℚ)) }

/-- Summary sort: `win_pct` desc, `total` desc, `wins` desc. -/
def summLE (a b : SummRow) : Bool :=
  if b.win_pct < a.win_pct then true
  else if a.win_pct ≠ b.win_pct then false
  else if b.total < a.total then true
  else if a.total ≠ b.total then false
  else b.wins ≤ a.wins

/-- `teammate_h2h(df)`: both result tables are empty when any needed column
is missing; otherwise emit the per-group rows, and the season summary over
the outcomes with a result. -/
def teammate_h2h (t : H2HTable) : List OutRow × List SummRow :=
  if t.allCols then
    let groups := groupByEvent t.rows
    let perRace := (groups.map (fun p => processGroup p.1 p.2)).flatten
    if perRace = [] then ([], [])
    else
      let valid := perRace.filter (fun r => r.beat_teammate.isSome)
      let summ :=
        List.insertionSort (fun a b => summLE a b = true) ((driverStats valid).map mkSumm)
      (List.insertionSort (fun a b => outRowLE a b = true) perRace, summ)
  else ([], [])

/-! ## Correlation report (`correlation_report`) -/

/-- One input row for `correlation_report` (post-`to_numeric`). -/
structure CorrRow where
  p1 : Option ℚ := none
  p2 : Option ℚ := none
  p3 : Option ℚ := none
  quali : Option ℚ := none
  grid : Option ℚ := none
  finish : Option ℚ := none

/-- Input table with presence flags for the six columns the report reads. -/
structure CorrTable where
  hasP1 : Bool := true
  hasP2 : Bool := true
  hasP3 : Bool := true
  hasQuali : Bool := true
  hasGrid : Bool := true
  hasFinish : Bool := true
  rows : List CorrRow := []

/-- Value of a named predictor column in a row. -/
def colVal (c : String) (r : CorrRow) : Option ℚ :=
  if c = "p1" then r.p1
  else if c = "p2" then r.p2
  else if c = "p3" then r.p3
  else if c = "quali" then r.quali
  else if c = "grid" then r.grid
  else none

/-- Presence of a named predictor column in the table. -/
def hasCol (t : CorrTable) (c : String) : Bool :=
  if c = "p1" then t.hasP1
  else if c = "p2" then t.hasP2
  else if c = "p3" then t.hasP3
  else if c = "quali" then t.hasQuali
  else if c = "grid" then t.hasGrid
  else false

/-- `[c for c in ["p1","p2","p3","quali","grid"] if c in df.columns]`. -/
def predictors (t : CorrTable) : List String :=
  ["p1", "p2", "p3", "quali", "grid"].filter (fun c => hasCol t c)

/-- `df[[col, "finish"]].dropna()`: the paired observations of a predictor. -/
def pairedObs (t : CorrTable) (c : String) : List (ℚ × ℚ) :=
  t.rows.filterMap (fun r =>
    match colVal c r, r.finish with
    | some x, some y => some (x, y)
    | _, _ => none)

/-- Exact rational as IEEE double, the dtype of the correlation columns. -/
def ratToFloat (q : ℚ) : Float := Float.ofInt q.num / Float.ofNat q.den

/-- Mean of a list of floats. -/
def meanF (l : List Float) : Float :=
  l.foldl (fun a b => a + b) 0 / Float.ofNat l.length

/-- Pearson correlation coefficient (`DataFrame.corr(method="pearson")`). -/
def pearsonF (l : List (ℚ × ℚ)) : Float :=
  let xs := l.map (fun p => ratToFloat p.1)
  let ys := l.map (fun p => ratToFloat p.2)
  let mx := meanF xs
  let my := meanF ys
  let sxy := (List.zip xs ys).foldl (fun acc p => acc + (p.1 - mx) * (p.2 - my)) 0
  let sxx := xs.foldl (fun acc x => acc + (x - mx) * (x - mx)) 0
  let syy := ys.foldl (fun acc y => acc + (y - my) * (y - my)) 0
  sxy / Float.sqrt (sxx * syy)

/-- Average rank of `x` among `l` (ties get the mean of their positions). -/
def avgRank (l : List ℚ) (x : ℚ) : ℚ :=
  (((l.filter (fun y => y < x)).length : ℚ)) +
    (((l.filter (fun y => y = x)).length : ℚ) + 1) / 2

/-- Spearman correlation (`method="spearman"`): Pearson on average ranks. -/
def spearmanF (l : List (ℚ × ℚ)) : Float :=
  let xs := l.map Prod.fst
  let ys := l.map Prod.snd
  pearsonF (List.zip (xs.map (avgRank xs)) (ys.map (avgRank ys)))

/-- One row of the correlation report. -/
structure ReportRow where
  metric : String
  pearson : Option Float
  spearman : Option Float
  n : ℕ

/-- The report row of one predictor: null correlations below 3 paired
observations, computed correlations otherwise. -/
def reportFor (t : CorrTable) (c : String) : ReportRow :=
  let sub := pairedObs t c
  if sub.length < 3 then
    { metric := c, pearson := none, spearman := none, n := sub.length }
  else
    { metric := c, pearson := some (pearsonF sub),
      spearman := some (spearmanF sub), n := sub.length }

/-- `sort_values("spearman", na_position="last")` comparator. -/
def spearLE (a b : ReportRow) : Bool :=
  match a.spearman, b.spearman with
  | some x, some y => x ≤ y
  | some _, none => true
  | none, some _ => false
  | none, none => true

/-- `correlation_report(df)`: empty without a `finish` column, else one row
per present predictor, sorted by Spearman ascending with nulls last. -/
def correlation_report (t : CorrTable) : List ReportRow :=
  if t.hasFinish then
    List.insertionSort (fun a b => spearLE a b = true)
      ((predictors t).map (reportFor t))
  else []

/-! ## Concrete fixtures used by witnesses and counterexamples -/

/-- A minimal config: finish mapping only. -/
def cfgBase : PointsConfig := { race_points_by_finish := [("1", 25)] }

/-- Same with a non-empty qualifying-points mapping. -/
def cfgQualiMap : PointsConfig :=
  { race_points_by_finish := [("1", 25)],
    qualifying_points_by_position := some [("1", 10)] }

/-- Row whose `quali` cell is NaN. -/
def rowNanQuali : Row := { quali := some none }

/-- Row whose `dnf` cell is NaN. -/
def rowNanDnf : Row := { dnf := some none }

/-- Row whose `fastest_lap` cell is NaN. -/
def rowNanFL : Row := { fastest_lap := some none }

/-- Config mapping the out-of-range finish position 21 to 7 points. -/
def cfg21 : PointsConfig := { race_points_by_finish := [("21", 7)] }

/-- Row that finished 21st. -/
def rowFinish21 : Row := { finish := some (some 21) }

/-- Row whose `finish` cell is NaN. -/
def rowFinishNan : Row := { finish := some none }

/-- Config with only a DNF penalty. -/
def cfgDnf : PointsConfig := { race_points_by_finish := [], dnf_penalty := 4 }

/-- Row with every column missing. -/
def rowEmpty : Row := {}

/-- Simulated table with every grouping-key column missing. -/
def tNoKeyCols : SimTable :=
  { hasSeason := false, hasRound := false, hasGrandPrix := false,
    hasDriver := false, hasTeam := false, rows := [{ sim_points := 5 }] }

/-- One fully keyed simulated row worth 3 points. -/
def rKeyed : SimRow :=
  { season := some 1, round := some 2, grand_prix := some "GP",
    driver := some "D", team := some "T", sim_points := 3 }

/-- Its grouping key. -/
def gKeyed : GroupKey := (1, 2, "GP", "D", "T")

/-- Table holding only the keyed row. -/
def tKeyed : SimTable := { rows := [rKeyed] }

/-- A row worth 5 points whose `driver` key is NaN. -/
def rNoDriver : SimRow :=
  { season := some 1, round := some 1, grand_prix := some "GP",
    driver := none, team := some "T", sim_points := 5 }

/-- Table whose only row has an absent grouping-key value. -/
def tDropped : SimTable := { rows := [rNoDriver] }

/-- Table mixing a keyed and an unkeyed row. -/
def tMixed : SimTable := { rows := [rKeyed, rNoDriver] }

/-- An event/team key for H2H fixtures. -/
def ek0 : EKey := (some 1, some 1, some "GP", some "T")

/-- Entrant A: finished 3rd, no DNF. -/
def hrA : H2HRow :=
  { season := some 1, round := some 1, grand_prix := some "GP",
    team := some "T", driver := some "A", finish := some 3, dnf := some 0 }

/-- Entrant B: finished 5th, no DNF. -/
def hrB : H2HRow :=
  { season := some 1, round := some 1, grand_prix := some "GP",
    team := some "T", driver := some "B", finish := some 5, dnf := some 0 }

/-- Entrant C: a third driver of the same team/event. -/
def hrC : H2HRow :=
  { season := some 1, round := some 1, grand_prix := some "GP",
    team := some "T", driver := some "C", finish := some 7, dnf := some 0 }

/-- H2H input table missing the `finish` column. -/
def tNoFinish : H2HTable := { hasFinish := false, rows := [hrA, hrB] }

/-- A correlation row with only `p1` and `finish` observed. -/
def crRow : CorrRow := { p1 := some 1, finish := some 2 }

/-- Correlation table whose single present predictor `p1` has 2 paired
observations. -/
def tCorr : CorrTable :=
  { hasP2 := false, hasP3 := false, hasQuali := false, hasGrid := false,
    rows := [crRow, crRow] }

/-! ## Shared helper lemmas -/

theorem exOk_bind {α β : Type} (a : α) (f : α → Except String β) :
    (Except.ok a : Except String α) >>= f = f a := rfl

theorem exErr_bind {α β : Type} (e : String) (f : α → Except String β) :
    (Except.error e : Except String α) >>= f = .error e := rfl

theorem exPure {α : Type} (a : α) : (pure a : Except String α) = .ok a := rfl

theorem bindOk_iff {α β : Type} (x : Except String α) (f : α → Except String β)
    (b : β) : (x >>= f = .ok b) ↔ ∃ a, x = .ok a ∧ f a = .ok b := by
  cases x with
  | error e => simp [exErr_bind]
  | ok a => simp [exOk_bind]

theorem racePts_dnf (row : Row) (v : Option (Option ℚ)) (cfg : PointsConfig) :
    racePts { row with dnf := v } cfg = racePts row cfg := rfl

theorem poleBonusPts_dnf (row : Row) (v : Option (Option ℚ))
    (cfg : PointsConfig) :
    poleBonusPts { row with dnf := v } cfg = poleBonusPts row cfg := rfl

theorem fastestLapPts_dnf (row : Row) (v : Option (Option ℚ))
    (cfg : PointsConfig) :
    fastestLapPts { row with dnf := v } cfg = fastestLapPts row cfg := rfl

theorem posChangePts_dnf (row : Row) (v : Option (Option ℚ))
    (cfg : PointsConfig) :
    posChangePts { row with dnf := v } cfg = posChangePts row cfg := rfl

theorem qualiMapPts_dnf (row : Row) (v : Option (Option ℚ))
    (cfg : PointsConfig) :
    qualiMapPts { row with dnf := v } cfg = qualiMapPts row cfg := rfl

theorem practicePts_dnf (row : Row) (v : Option (Option ℚ))
    (cfg : PointsConfig) :
    practicePts { row with dnf := v } cfg = practicePts row cfg := rfl

theorem dnfPts_zero (row : Row) (cfg : PointsConfig) :
    dnfPts { row with dnf := some (some 0) } cfg = .ok 0 := rfl

theorem dnfPts_one (row : Row) (cfg : PointsConfig) :
    dnfPts { row with dnf := some (some 1) } cfg = .ok (-cfg.dnf_penalty) := rfl

/-! ## Claim theorems -/

/-- C1: the claim does not hold of the code.  `compute_points_row` raises
(`ValueError` from an unguarded `int()` on NaN) when the `quali` cell is NaN
while a non-empty qualifying-points mapping is configured, and likewise when
the `dnf` or `fastest_lap` cell is NaN. -/
theorem compute_points_row_nan_raises :
    compute_points_row rowNanQuali cfgQualiMap
        = .error "cannot convert float NaN to integer"
    ∧ compute_points_row rowNanDnf cfgBase
        = .error "cannot convert float NaN to integer"
    ∧ compute_points_row rowNanFL cfgBase
        = .error "cannot convert float NaN to integer" :=
  ⟨rfl, rfl, rfl⟩

/-- C5 counterexample: the out-of-range finish value 21 is not treated as
absent — with the key "21" mapped to 7 points the row scores 7, while an
actually absent finish scores 0. -/
theorem finish21_scored_cex :
    compute_points_row rowFinish21 cfg21 = .ok 7
    ∧ compute_points_row rowFinishNan cfg21 = .ok 0 ∧ (7 : ℤ) ≠ 0 :=
  ⟨rfl, rfl, by decide⟩

/-- C5 (amended): NaN cells and non-numeric strings degrade to absent and
score nothing, a fractional value is truncated to its integer part, and an
integer position is keyed by its decimal string — but there is no [1,20]
range check: the truncated integer, whatever its value, is looked up in the
finish-points mapping (0 when unmapped). -/
theorem position_normalization_truncates_without_range_check
    (q : ℚ) (m : List (String × ℤ)) :
    compute_points_row { finish := some (some q) } { race_points_by_finish := m }
        = .ok (dictGet m (toString (truncQ q)))
    ∧ compute_points_row { finish := some none } { race_points_by_finish := m }
        = .ok 0
    ∧ compute_points_row {} { race_points_by_finish := m } = .ok 0
    ∧ to_numeric (Raw.rstr "abc") = none
    ∧ (∀ z : ℤ, truncQ (z : ℚ) = z)
    ∧ truncQ (mkRat 27 10) = 2 := by
  refine ⟨?_, rfl, rfl, rfl, ?_, rfl⟩
  · have h : compute_points_row { finish := some (some q) }
        { race_points_by_finish := m }
        = .ok (dictGet m (toString (truncQ q)) + 0 + 0 + 0 + 0 + 0 + 0) := rfl
    rw [h]
    norm_num
  · intro z
    simp [truncQ, Rat.num_intCast, Rat.den_intCast]

/-- C7: flipping the `dnf` flag of a well-formed row from false (0) to true
(1), all else equal, lowers the score by exactly `dnf_penalty`. -/
theorem compute_points_row_dnf_penalty (row : Row) (cfg : PointsConfig) (n : ℤ)
    (h : compute_points_row { row with dnf := some (some 0) } cfg = .ok n) :
    compute_points_row { row with dnf := some (some 1) } cfg
      = .ok (n - cfg.dnf_penalty) := by
  unfold compute_points_row at h ⊢
  simp only [racePts_dnf, poleBonusPts_dnf, fastestLapPts_dnf, posChangePts_dnf,
    qualiMapPts_dnf, practicePts_dnf, dnfPts_zero, dnfPts_one, exOk_bind] at h ⊢
  simp only [bindOk_iff, exPure, Except.ok.injEq] at h ⊢
  obtain ⟨t1, h1, t2, h2, t3, h3, t4, h4, t6, h6, t7, h7, hsum⟩ := h
  exact ⟨t1, h1, t2, h2, t3, h3, t4, h4, t6, h6, t7, h7, by omega⟩

/-- Witness for C7 at a concrete row and config. -/
theorem compute_points_row_dnf_penalty_witness :
    compute_points_row { rowEmpty with dnf := some (some 1) } cfgDnf
      = .ok (0 - cfgDnf.dnf_penalty) :=
  compute_points_row_dnf_penalty rowEmpty cfgDnf 0 rfl

theorem mem_insertAdd (k k0 : GroupKey) (v v0 : ℤ) (l : List (GroupKey × ℤ))
    (h : (k, v) ∈ insertAdd k0 v0 l) : k = k0 ∨ ∃ v', (k, v') ∈ l := by
  induction l with
  | nil =>
    simp only [insertAdd, List.mem_singleton, Prod.mk.injEq] at h
    exact .inl h.1
  | cons p rest ih =>
    obtain ⟨k', v'⟩ := p
    simp only [insertAdd] at h
    by_cases hk : k' = k0
    · rw [if_pos hk] at h
      rcases List.mem_cons.mp h with he | hm
      · simp only [Prod.mk.injEq] at he
        exact .inl (he.1.trans hk)
      · exact .inr ⟨v, List.mem_cons_of_mem _ hm⟩
    · rw [if_neg hk] at h
      rcases List.mem_cons.mp h with he | hm
      · exact .inr ⟨v', by rw [Prod.mk.injEq] at he; rw [he.1]; exact List.mem_cons_self _ _⟩
      · rcases ih hm with h1 | ⟨v'', h2⟩
        · exact .inl h1
        · exact .inr ⟨v'', List.mem_cons_of_mem _ h2⟩

theorem mem_foldl_groupStep (rows : List SimRow) (acc : List (GroupKey × ℤ))
    (k : GroupKey) (v : ℤ) (h : (k, v) ∈ rows.foldl groupStep acc) :
    (∃ v', (k, v') ∈ acc) ∨ ∃ r, r ∈ rows ∧ keyOf r = some k := by
  induction rows generalizing acc with
  | nil => exact .inl ⟨v, h⟩
  | cons r rest ih =>
    rw [List.foldl_cons] at h
    rcases ih (groupStep acc r) h with ⟨v', hv⟩ | ⟨r', hr, hk⟩
    · unfold groupStep at hv
      cases hk0 : keyOf r with
      | none => rw [hk0] at hv; exact .inl ⟨v', hv⟩
      | some k0 =>
        rw [hk0] at hv
        rcases mem_insertAdd k k0 v' r.sim_points acc hv with he | ⟨v'', h2⟩
        · exact .inr ⟨r, List.mem_cons_self _ _, he ▸ hk0⟩
        · exact .inl ⟨v'', h2⟩
    · exact .inr ⟨r', List.mem_cons_of_mem _ hr, hk⟩

theorem aggTotal_insertAdd (k : GroupKey) (v : ℤ) (l : List (GroupKey × ℤ)) :
    aggTotal (insertAdd k v l) = aggTotal l + v := by
  induction l with
  | nil => simp [insertAdd, aggTotal]
  | cons p rest ih =>
    obtain ⟨k', v'⟩ := p
    by_cases hk : k' = k
    · simp only [insertAdd, if_pos hk, aggTotal, List.map_cons, List.sum_cons]
      ring
    · simp only [insertAdd, if_neg hk, aggTotal, List.map_cons, List.sum_cons] at ih ⊢
      rw [ih]
      ring

theorem aggTotal_foldl (rows : List SimRow) (acc : List (GroupKey × ℤ)) :
    aggTotal (rows.foldl groupStep acc)
      = aggTotal acc + simTotal (rows.filter (fun r => (keyOf r).isSome)) := by
  induction rows generalizing acc with
  | nil => simp [simTotal]
  | cons r rest ih =>
    rw [List.foldl_cons, ih]
    unfold groupStep
    cases hk : keyOf r with
    | none =>
      rw [List.filter_cons]
      simp [hk]
    | some k =>
      rw [List.filter_cons]
      simp only [hk, Option.isSome_some, if_pos]
      rw [aggTotal_insertAdd]
      simp only [simTotal, List.map_cons, List.sum_cons]
      ring

theorem foldl_groupStep_filter (rows : List SimRow) (acc : List (GroupKey × ℤ)) :
    (rows.filter (fun r => (keyOf r).isSome)).foldl groupStep acc
      = rows.foldl groupStep acc := by
  induction rows generalizing acc with
  | nil => rfl
  | cons r rest ih =>
    rw [List.filter_cons, List.foldl_cons]
    cases hk : keyOf r with
    | none =>
      have hstep : groupStep acc r = acc := by unfold groupStep; rw [hk]
      simp only [hk, Option.isSome_none, Bool.false_eq_true, if_neg, ih, hstep]
      simp [ih]
    | some k =>
      simp only [hk, Option.isSome_some, if_pos, List.foldl_cons]
      exact ih (groupStep acc r)

theorem aggTotal_perm_sorted (l : List (GroupKey × ℤ)) :
    aggTotal (List.insertionSort aggOrder l) = aggTotal l := by
  unfold aggTotal
  exact ((List.perm_insertionSort aggOrder l).map Prod.snd).sum_eq

/-- C2 counterexample: on an input with no grouping-key column at all the
code raises `KeyError` instead of returning a single grand-total row. -/
theorem aggregate_points_missing_cols_cex :
    aggregate_points tNoKeyCols
      = .error "KeyError: grouping column not in the DataFrame" := rfl

/-- C2 (amended): `aggregate_points` always groups by the full five-tuple
(season, round, grand_prix, driver, team): it succeeds exactly when all five
columns are present (no subset fallback, no grand-total row), and every
emitted group key is the key of some input row. -/
theorem aggregate_points_fixed_five_column_grouping (t : SimTable) :
    ((aggregate_points t).isOk = true ↔ t.allKeyCols = true)
    ∧ ∀ l g, aggregate_points t = .ok l → g ∈ l →
        ∃ r, r ∈ t.rows ∧ keyOf r = some g.1 := by
  constructor
  · unfold aggregate_points
    by_cases hc : t.allKeyCols = true
    · rw [if_pos hc]
      simp [hc, Except.isOk, Except.toBool]
    · rw [if_neg hc]
      simp [hc, Except.isOk, Except.toBool]
  · intro l g h hg
    unfold aggregate_points at h
    by_cases hc : t.allKeyCols = true
    · rw [if_pos hc] at h
      simp only [Except.ok.injEq] at h
      rw [← h] at hg
      rw [List.mem_insertionSort] at hg
      obtain ⟨k, v⟩ := g
      rcases mem_foldl_groupStep t.rows [] k v hg with ⟨v', hv⟩ | hr
      · simp at hv
      · exact hr
    · rw [if_neg hc] at h
      exact absurd h (by simp)

/-- Witness for C2 at a concrete one-row table. -/
theorem aggregate_points_fixed_five_column_grouping_witness :
    ((aggregate_points tKeyed).isOk = true)
    ∧ ∃ r, r ∈ tKeyed.rows ∧ keyOf r = some gKeyed :=
  ⟨((aggregate_points_fixed_five_column_grouping tKeyed).1).mpr rfl,
   (aggregate_points_fixed_five_column_grouping tKeyed).2 [(gKeyed, 3)]
     (gKeyed, 3) rfl (List.mem_singleton.mpr rfl)⟩

/-- C3 counterexample: a single row worth 5 points whose `driver` key is
NaN is dropped by the grouping, so the aggregated total 0 differs from the
table total 5. -/
theorem aggregate_points_loses_nan_key_points_cex :
    aggregate_points tDropped = .ok [] ∧ aggTotal [] = 0
    ∧ simTotal tDropped.rows = 5 ∧ (0 : ℤ) ≠ 5 :=
  ⟨rfl, rfl, rfl, by decide⟩

/-- C3 (amended): conservation of points holds over the rows whose five
grouping keys are all present — the aggregated `sim_points` total equals the
total over exactly those rows. -/
theorem aggregate_points_conserves_keyed_points (t : SimTable)
    (l : List (GroupKey × ℤ)) (h : aggregate_points t = .ok l) :
    aggTotal l = simTotal (t.rows.filter (fun r => (keyOf r).isSome)) := by
  unfold aggregate_points at h
  by_cases hc : t.allKeyCols = true
  · rw [if_pos hc] at h
    simp only [Except.ok.injEq] at h
    rw [← h, aggTotal_perm_sorted]
    unfold groupSums
    rw [aggTotal_foldl]
    simp [aggTotal]
  · rw [if_neg hc] at h
    exact absurd h (by simp)

/-- Witness for C3 at a table mixing a keyed and an unkeyed row. -/
theorem aggregate_points_conserves_keyed_points_witness :
    aggTotal [(gKeyed, 3)]
      = simTotal (tMixed.rows.filter (fun r => (keyOf r).isSome)) :=
  aggregate_points_conserves_keyed_points tMixed [(gKeyed, 3)] rfl

/-- C9: rows with an absent grouping-key value are silently excluded —
deleting them from the input does not change `aggregate_points` at all. -/
theorem aggregate_points_excludes_unkeyed_rows (t : SimTable) :
    aggregate_points
        { t with rows := t.rows.filter (fun r => (keyOf r).isSome) }
      = aggregate_points t := by
  unfold aggregate_points
  have hc : SimTable.allKeyCols
      { t with rows := t.rows.filter (fun r => (keyOf r).isSome) }
      = t.allKeyCols := rfl
  rw [hc]
  by_cases h : t.allKeyCols = true
  · rw [if_pos h, if_pos h]
    unfold groupSums
    rw [foldl_groupStep_filter]
  · rw [if_neg h, if_neg h]

set_option maxHeartbeats 1000000 in
theorem decide_resolution (f1 f2 : Option ℤ) (d1 d2 : ℤ) :
    (decide f1 d1 f2 d2 = some 1 ∧ decide f2 d2 f1 d1 = some 0)
    ∨ (decide f1 d1 f2 d2 = some 0 ∧ decide f2 d2 f1 d1 = some 1)
    ∨ decide f1 d1 f2 d2 = none := by
  rcases f1 with _ | a <;> rcases f2 with _ | b <;>
    by_cases h11 : d1 = 1 <;> by_cases h21 : d2 = 1 <;>
    by_cases h10 : d1 = 0 <;> by_cases h20 : d2 = 0 <;>
    first
      | (exfalso; omega)
      | (simp_all [decide]; done)
      | (by_cases hab : a < b <;> by_cases hba : b < a <;>
          first
            | (exfalso; omega)
            | (simp_all [decide]; done)
            | (have heq : a = b := by omega
               subst heq
               simp_all [decide, lt_irrefl]))

theorem processGroup_pair (k : EKey) (g : List H2HRow) (a b : H2HRow)
    (hf : g.filter (fun r => r.driver.isSome) = [a, b]) :
    processGroup k g =
      [mkOutRow k a b
        (decide (outcome a).1 (outcome a).2 (outcome b).1 (outcome b).2),
       mkOutRow k b a
        (if (decide (outcome a).1 (outcome a).2 (outcome b).1 (outcome b).2).isSome
         then decide (outcome b).1 (outcome b).2 (outcome a).1 (outcome a).2
         else none)] := by
  unfold processGroup
  rw [hf]

/-- C4: for every team/event group that resolves to exactly two entrants,
the two emitted rows carry exactly one of {A wins, B wins, no-result}: the
`beat_teammate` fields are `some 1`/`some 0`, `some 0`/`some 1`, or
`none`/`none`. -/
theorem teammate_h2h_pair_symmetry (k : EKey) (g : List H2HRow)
    (h : (g.filter (fun r => r.driver.isSome)).length = 2) :
    ∃ ra rb, processGroup k g = [ra, rb]
    ∧ ((ra.beat_teammate = some 1 ∧ rb.beat_teammate = some 0)
       ∨ (ra.beat_teammate = some 0 ∧ rb.beat_teammate = some 1)
       ∨ (ra.beat_teammate = none ∧ rb.beat_teammate = none)) := by
  rcases hf : g.filter (fun r => r.driver.isSome) with _ | ⟨a, _ | ⟨b, _ | ⟨c, rest⟩⟩⟩
  · rw [hf] at h; simp at h
  · rw [hf] at h; simp at h
  · rw [processGroup_pair k g a b hf]
    refine ⟨_, _, rfl, ?_⟩
    rcases decide_resolution (outcome a).1 (outcome b).1 (outcome a).2 (outcome b).2
      with ⟨h1, h2⟩ | ⟨h1, h2⟩ | h1
    · exact .inl ⟨h1, by show (if _ then _ else _) = _; simp [h1, h2]⟩
    · exact .inr (.inl ⟨h1, by show (if _ then _ else _) = _; simp [h1, h2]⟩)
    · exact .inr (.inr ⟨h1, by show (if _ then _ else _) = _; simp [h1]⟩)
  · rw [hf] at h; simp at h

/-- Witness for C4 at a concrete two-entrant group (finishes 3 and 5). -/
theorem teammate_h2h_pair_symmetry_witness :
    ∃ ra rb, processGroup ek0 [hrA, hrB] = [ra, rb]
    ∧ ((ra.beat_teammate = some 1 ∧ rb.beat_teammate = some 0)
       ∨ (ra.beat_teammate = some 0 ∧ rb.beat_teammate = some 1)
       ∨ (ra.beat_teammate = none ∧ rb.beat_teammate = none)) :=
  teammate_h2h_pair_symmetry ek0 [hrA, hrB] (by decide)

/-- C6: a team/event group with any number of identity-carrying entrants
other than exactly 2 emits zero per-race rows. -/
theorem teammate_h2h_skips_non_pairs (k : EKey) (g : List H2HRow)
    (h : (g.filter (fun r => r.driver.isSome)).length ≠ 2) :
    processGroup k g = [] := by
  unfold processGroup
  rcases hf : g.filter (fun r => r.driver.isSome) with _ | ⟨a, _ | ⟨b, _ | ⟨c, rest⟩⟩⟩
  · rw [hf]
  · rw [hf]
  · rw [hf] at h; simp at h
  · rw [hf]

/-- Witness for C6 at a concrete three-entrant group. -/
theorem teammate_h2h_skips_non_pairs_witness :
    processGroup ek0 [hrA, hrB, hrC] = [] :=
  teammate_h2h_skips_non_pairs ek0 [hrA, hrB, hrC] (by decide)

/-- C10: when any of the seven needed columns is missing, `teammate_h2h`
returns two empty tables (and does not raise). -/
theorem teammate_h2h_missing_needed_column (t : H2HTable)
    (h : t.allCols = false) :
    teammate_h2h t = ([], []) := by
  unfold teammate_h2h
  rw [h]
  simp

/-- Witness for C10 at a table whose `finish` column is missing. -/
theorem teammate_h2h_missing_needed_column_witness :
    teammate_h2h tNoFinish = ([], []) :=
  teammate_h2h_missing_needed_column tNoFinish rfl

/-- C8: when a present predictor has fewer than 3 paired observations with
`finish`, the report carries its row with null Pearson, null Spearman and
the sample size; and any report row carrying a computed Pearson has at
least 3 observations (and a computed Spearman). -/
theorem correlation_report_null_below_three (t : CorrTable) (c : String)
    (hf : t.hasFinish = true) (hc : c ∈ predictors t)
    (hn : (pairedObs t c).length < 3) :
    ({ metric := c, pearson := none, spearman := none,
       n := (pairedObs t c).length } : ReportRow) ∈ correlation_report t
    ∧ ∀ r ∈ correlation_report t, r.pearson.isSome = true →
        3 ≤ r.n ∧ r.spearman.isSome = true := by
  constructor
  · unfold correlation_report
    rw [if_pos hf, List.mem_insertionSort]
    have hrep : reportFor t c
        = { metric := c, pearson := none, spearman := none,
            n := (pairedObs t c).length } := by
      unfold reportFor
      simp only [if_pos hn]
    rw [← hrep]
    exact List.mem_map_of_mem _ hc
  · intro r hr hp
    unfold correlation_report at hr
    rw [if_pos hf, List.mem_insertionSort] at hr
    obtain ⟨c', hc', hrc⟩ := List.mem_map.mp hr
    by_cases h3 : (pairedObs t c').length < 3
    · exfalso
      rw [← hrc] at hp
      unfold reportFor at hp
      simp only [if_pos h3] at hp
      simp at hp
    · constructor
      · rw [← hrc]
        unfold reportFor
        simp only [if_neg h3]
        omega
      · rw [← hrc]
        unfold reportFor
        simp only [if_neg h3]
        simp

/-- Witness for C8: the sole present predictor `p1` of `tCorr` has 2 paired
observations, below the threshold. -/
theorem correlation_report_null_below_three_witness :
    ({ metric := "p1", pearson := none, spearman := none,
       n := (pairedObs tCorr "p1").length } : ReportRow) ∈ correlation_report tCorr
    ∧ ∀ r ∈ correlation_report tCorr, r.pearson.isSome = true →
        3 ≤ r.n ∧ r.spearman.isSome = true :=
  correlation_report_null_below_three tCorr "p1" rfl (by decide) (by decide)

end F1
